import Mathlib

/-!
Verification development for the Milo 1.0.3 Born-Oppenheimer molecular-dynamics
driver (Python).  The definitions below are a shallow embedding of the Python
sources: `containers.py`, `force_propagation_handler.py`, `initial_energy_sampler.py`,
`electronic_structure_program_handler.py`, `program_state.py`,
`random_number_generator.py` and `scientific_constants.py`.

Modelling conventions:
* Python floats are modelled as exact rationals (`ℚ`); the analytic facts that
  need `sin` / `sqrt` are stated over `ℝ` in a separate section.
* Fallible Python code (raised exceptions) is modelled with `Except PyErr`.
* Python's `random.Random` is modelled as a stream of uniform draws together
  with a cursor counting how many draws have been consumed.
* Transcendental library calls (`math.exp`, `math.sqrt`, `math.sin`) that feed
  pure bookkeeping code are abstracted as function parameters of the embedding;
  every algebraic step around them is translated literally.
-/

/-- Kinds of Python exceptions raised by the modelled code paths. -/
inductive PyErr where
  | typeError
  | valueError
  | indexError
  | inputError
  deriving DecidableEq, Repr

/-- A Cartesian triple of rationals (an xyz row of a Milo container). -/
abbrev T3 : Type := ℚ × ℚ × ℚ

/-- Componentwise sum of two triples. -/
def t3Add (p q : T3) : T3 := (p.1 + q.1, p.2.1 + q.2.1, p.2.2 + q.2.2)

/-- Componentwise difference of two triples. -/
def t3Sub (p q : T3) : T3 := (p.1 - q.1, p.2.1 - q.2.1, p.2.2 - q.2.2)

/-- Scale every component of a triple. -/
def t3Smul (c : ℚ) (p : T3) : T3 := (c * p.1, c * p.2.1, c * p.2.2)

/-- Squared Euclidean norm of a triple (`np.sum(np.square(.))`). -/
def t3SqNorm (p : T3) : ℚ := p.1 ^ 2 + p.2.1 ^ 2 + p.2.2 ^ 2

/- Constants from `scientific_constants.py`, as exact rationals. -/

/-- `ANGSTROM_TO_METER = 1.0e-10`. -/
def ANGSTROM_TO_METER : ℚ := 1 / 10 ^ 10

/-- `METER_TO_ANGSTROM = 1 / ANGSTROM_TO_METER`. -/
def METER_TO_ANGSTROM : ℚ := 10 ^ 10

/-- `FEMTOSECOND_TO_SECOND = 1.0e-15`. -/
def FEMTOSECOND_TO_SECOND : ℚ := 1 / 10 ^ 15

/-- `AMU_TO_KG = 1.66053878e-27`. -/
def AMU_TO_KG : ℚ := 166053878 / 10 ^ 35

/-- `AVOGADROS_NUMBER = 6.02214076e23`. -/
def AVOGADROS_NUMBER : ℚ := 602214076 * 10 ^ 15

/-- `GAS_CONSTANT_KCAL = 0.00198720425864083` (kcal/(mol K)). -/
def GAS_CONSTANT_KCAL : ℚ := 198720425864083 / 10 ^ 17

/-- `HARTREE_TO_JOULE = 4.359744722207185e-18`. -/
def HARTREE_TO_JOULE : ℚ := 4359744722207185 / 10 ^ 33

/-- `HARTREE_PER_BOHR_TO_NEWTON = 8.2387234983e-8`. -/
def HARTREE_PER_BOHR_TO_NEWTON : ℚ := 82387234983 / 10 ^ 18

/-- `JOULE_TO_KCAL_PER_MOLE = TO_KILO * JOULE_TO_CALORIE / PARTICLE_TO_MOLE`,
i.e. `1e-3 * (1/4.184) * 6.02214076e23`. -/
def JOULE_TO_KCAL_PER_MOLE : ℚ := (1 / 10 ^ 3) * (1000 / 4184) * (602214076 * 10 ^ 15)

/-- `KCAL_PER_MOLE_TO_JOULE = 1 / JOULE_TO_KCAL_PER_MOLE`. -/
def KCAL_PER_MOLE_TO_JOULE : ℚ := 1 / JOULE_TO_KCAL_PER_MOLE

/-- `JOULE_TO_MILLIDYNE_ANGSTROM = TO_MILLI * NEWTON_TO_DYNE * METER_TO_ANGSTROM = 1e18`. -/
def JOULE_TO_MILLIDYNE_ANGSTROM : ℚ := 10 ^ 3 * 10 ^ 5 * 10 ^ 10

/-- `MILLIDYNE_ANGSTROM_TO_JOULE = 1 / JOULE_TO_MILLIDYNE_ANGSTROM`. -/
def MILLIDYNE_ANGSTROM_TO_JOULE : ℚ := 1 / JOULE_TO_MILLIDYNE_ANGSTROM

/-- The `units` factor of `_calculate_mode_velocities`:
`FROM_MILLI * FROM_CENTI * METER_TO_ANGSTROM`. -/
def unitsGramAngstromSq : ℚ := (1 / 10 ^ 3) * (1 / 10 ^ 2) * METER_TO_ANGSTROM

/- Containers (`containers.py`).  Each Milo container stores its data in one
canonical unit; the embeddings below are lists of canonical-unit entries, and
each Python method becomes a function on such lists. -/

/-- `Positions.__add__`: elementwise sum via `zip`, which silently truncates to
the shorter operand (angstrom storage). -/
def posAdd (a b : List T3) : List T3 := List.zipWith t3Add a b

/-- `Positions.__sub__`: elementwise difference via `zip` (truncating). -/
def posSub (a b : List T3) : List T3 := List.zipWith t3Sub a b

/-- `Positions.__mul__` with a scalar: every coordinate is multiplied. -/
def posMulScalar (a : List T3) (k : ℚ) : List T3 := a.map (t3Smul k)

/-- `Positions.from_velocity(v, dt)`: displacement `v*dt` appended in meters,
hence stored as `v*dt*METER_TO_ANGSTROM` angstroms. -/
def positionsFromVelocity (v : List T3) (dtSeconds : ℚ) : List T3 :=
  v.map (t3Smul (dtSeconds * METER_TO_ANGSTROM))

/-- `Positions.from_acceleration(a, dt)`: displacement `a*dt^2` appended in
meters, stored in angstroms. -/
def positionsFromAcceleration (a : List T3) (dtSeconds : ℚ) : List T3 :=
  a.map (t3Smul (dtSeconds ^ 2 * METER_TO_ANGSTROM))

/-- `Velocities.__add__` (m/s storage, truncating `zip`). -/
def velAdd (a b : List T3) : List T3 := List.zipWith t3Add a b

/-- `Velocities.__mul__` with a scalar. -/
def velMulScalar (a : List T3) (k : ℚ) : List T3 := a.map (t3Smul k)

/-- `Velocities.from_acceleration(a, dt)`: `a*dt` in m/s. -/
def velocitiesFromAcceleration (a : List T3) (dtSeconds : ℚ) : List T3 :=
  a.map (t3Smul dtSeconds)

/-- `Accelerations.__add__` (m/s^2 storage, truncating `zip`). -/
def accAdd (a b : List T3) : List T3 := List.zipWith t3Add a b

/-- `Accelerations.from_forces(F, atoms)`.  The guard evaluates `atoms[0]`, so
an empty atom list raises `IndexError`; otherwise `zip(atom_masses_kg, forces)`
pairs entries up to the shorter of the two lists, with `a = F / (m * AMU_TO_KG)`.
Atoms are represented by their masses in amu (the only field used). -/
def accelerationsFromForces (forces : List T3) (atomMassesAmu : List ℚ) :
    Except PyErr (List T3) :=
  if atomMassesAmu = [] then .error .indexError
  else .ok (List.zipWith (fun m p => t3Smul (1 / (m * AMU_TO_KG)) p) atomMassesAmu forces)

/-- Argument of `ForceConstants.append`: the source accepts a scalar
(broadcast to a triple) or a triple. -/
inductive FCInput where
  | scalar : ℚ → FCInput
  | triple : T3 → FCInput

/-- `ForceConstants.append(k, MILLIDYNE_PER_ANGSTROM)`: broadcast a scalar to
`(k,k,k)`, multiply each component by the conversion factor `0.1`, and store
the triple (canonical N/m storage). -/
def forceConstantsAppendMdyne (fcs : List T3) (v : FCInput) : List T3 :=
  match v with
  | .scalar k => fcs ++ [t3Smul (1 / 10) (k, k, k)]
  | .triple t => fcs ++ [t3Smul (1 / 10) t]

/-- `ForceConstants.as_millidyne_per_angstrom()`: every stored component is
multiplied by `10.0`. -/
def forceConstantsAsMdyne (fcs : List T3) : List T3 := fcs.map (t3Smul 10)

/-- `ForceConstants.as_millidyne_per_angstrom(f)` for a single index: NOTE the
result is a 3-tuple, not a scalar (out-of-range indices, which would raise in
Python, are given a default and never used by the theorems below). -/
def forceConstantsAsMdyneAt (fcs : List T3) (f : ℕ) : T3 :=
  t3Smul 10 (fcs.getD f (0, 0, 0))

/- Integrator (`force_propagation_handler.py`).  The trajectory fields of
`ProgramState` that the handlers touch, with atoms reduced to their masses. -/

/-- The slice of `ProgramState` read and written by the propagation handlers.
`stepSizeSeconds` is the payload of the `containers.Time` object `step_size`
(canonical storage: seconds). -/
structure MDState where
  atoms : List ℚ
  structures : List (List T3)
  velocities : List (List T3)
  forces : List (List T3)
  accelerations : List (List T3)
  stepSizeSeconds : ℚ
  deriving DecidableEq, Repr

/-- `ForcePropagationHandler._validate_program_state`.  The first two checks
raise `ValueError` on an empty force history or an empty atom list.  The third
check executes `program_state.step_size <= 0`; `step_size` is a
`containers.Time` object and `Time` defines no ordering methods, so comparing
it with the int `0` raises `TypeError` in Python for EVERY step size - the
branch that was meant to reject non-positive steps is never reached. -/
def validateProgramState (s : MDState) : Except PyErr Unit :=
  if s.forces = [] then .error .valueError
  else if s.atoms = [] then .error .valueError
  else .error .typeError

/-- `ForcePropagationHandler._calculate_acceleration`: convert the last stored
forces to an acceleration and append it.  (The `id()`-keyed memo cache is not
modelled: within one trajectory each key is computed at most once, so the
cache is behaviourally transparent.) -/
def calculateAcceleration (s : MDState) : Except PyErr MDState :=
  match s.forces.getLast? with
  | none => .error .indexError
  | some lastForces =>
    match accelerationsFromForces lastForces s.atoms with
    | .error e => .error e
    | .ok a => .ok { s with accelerations := s.accelerations ++ [a] }

/-- `ForcePropagationHandler._calculate_velocity`:
`v = velocities[-1] + Velocities.from_acceleration(accelerations[-1] + accelerations[-2], dt) * 0.5`,
appended to the velocity history. -/
def calculateVelocity (s : MDState) : Except PyErr MDState :=
  match s.accelerations.reverse, s.velocities.reverse with
  | a1 :: a2 :: _, v1 :: _ =>
    .ok { s with
      velocities := s.velocities ++
        [velAdd v1 (velMulScalar (velocitiesFromAcceleration (accAdd a1 a2) s.stepSizeSeconds) (1 / 2))] }
  | _, _ => .error .indexError

/-- The structure-update tail of `Verlet.run_next_step` (lines 138-153): with
exactly one structure, `x + from_velocity(v,dt) + from_acceleration(a,dt)*0.5`;
otherwise `x*2 - x_prev + from_acceleration(a,dt)`. -/
def verletStructureUpdate (s : MDState) : Except PyErr MDState :=
  if s.structures.length = 1 then
    match s.structures.getLast?, s.velocities.getLast?, s.accelerations.getLast? with
    | some x, some v, some a =>
      .ok { s with structures := s.structures ++
        [posAdd (posAdd x (positionsFromVelocity v s.stepSizeSeconds))
          (posMulScalar (positionsFromAcceleration a s.stepSizeSeconds) (1 / 2))] }
    | _, _, _ => .error .indexError
  else
    match s.structures.reverse, s.accelerations.getLast? with
    | x1 :: x2 :: _, some a =>
      .ok { s with structures := s.structures ++
        [posAdd (posSub (posMulScalar x1 2) x2) (positionsFromAcceleration a s.stepSizeSeconds)] }
    | _, _ => .error .indexError

/-- `Verlet.run_next_step`: validate, append the acceleration, append the
output velocity when more than one structure is stored, then append the next
structure. -/
def verletRunNextStep (s : MDState) : Except PyErr MDState := do
  let _ ← validateProgramState s
  let s1 ← calculateAcceleration s
  let s2 ← if s1.structures.length > 1 then calculateVelocity s1 else .ok s1
  verletStructureUpdate s2

/-- The structure-update tail of `VelocityVerlet.run_next_step` (lines 187-193):
always `x + from_velocity(v,dt) + from_acceleration(a,dt)*0.5`. -/
def velocityVerletStructureUpdate (s : MDState) : Except PyErr MDState :=
  match s.structures.getLast?, s.velocities.getLast?, s.accelerations.getLast? with
  | some x, some v, some a =>
    .ok { s with structures := s.structures ++
      [posAdd (posAdd x (positionsFromVelocity v s.stepSizeSeconds))
        (posMulScalar (positionsFromAcceleration a s.stepSizeSeconds) (1 / 2))] }
  | _, _, _ => .error .indexError

/-- `VelocityVerlet.run_next_step`. -/
def velocityVerletRunNextStep (s : MDState) : Except PyErr MDState := do
  let _ ← validateProgramState s
  let s1 ← calculateAcceleration s
  let s2 ← if s1.structures.length > 1 then calculateVelocity s1 else .ok s1
  velocityVerletStructureUpdate s2

/- Random source (`random_number_generator.py`).  The Mersenne-Twister stream
is abstracted as a function from draw index to value; the cursor records how
many uniform draws have been consumed. -/

/-- The random number generator: an abstract stream of `uniform()` values and a
cursor counting consumed draws. -/
structure PyRng where
  stream : ℕ → ℚ
  idx : ℕ

/-- `RandomNumberGenerator.uniform()`: return the next stream value and
advance the cursor. -/
def rngUniform (r : PyRng) : ℚ × PyRng :=
  (r.stream r.idx, { r with idx := r.idx + 1 })

/-- `RandomNumberGenerator.one_or_neg_one()`: `2 * (uniform() >= 0.5) - 1`,
consuming exactly one uniform draw. -/
def rngOneOrNegOne (r : PyRng) : ℤ × PyRng :=
  let (u, r1) := rngUniform r
  ((if (1 : ℚ) / 2 ≤ u then 1 else -1), r1)

/- Vibrational-quanta sampler (`initial_energy_sampler._sample`). -/

/-- Python's `int()` on a float: truncation toward zero. -/
def pyInt (q : ℚ) : ℤ := if 0 ≤ q then ⌊q⌋ else ⌈q⌉

/-- The geometric-series safety bound `max_iter = int(4000 * zpe_ratio + 2)`
of `_sample`, as a natural number of permitted loop iterations. -/
def sampleMaxIter (clampedR : ℚ) : ℕ := (pyInt (4000 * clampedR + 2)).toNat

/-- The accumulation loop of `_sample`:
`while i <= max_iter and random_number > c: c += r^i * (1-r); i += 1`,
returning `i - 1`.  Here `j = i - 1` counts completed additions, `cAcc` is the
running sum, and the fuel is `max_iter - j`. -/
def sampleLoopGo (r u : ℚ) : ℕ → ℚ → ℕ → ℕ
  | 0, _, j => j
  | fuel + 1, cAcc, j =>
    if cAcc < u then sampleLoopGo r u fuel (cAcc + r ^ (j + 1) * (1 - r)) (j + 1) else j

/-- One mode of `_sample`: clamp the Boltzmann factor to `0.99999999999`
(`1 - 1e-11`), then run the accumulation loop started at `c = 1 - r`, `i = 1`.
`rUnclamped` stands for the computed `exp(-2 * zpe_kcal / (R_kcal * T))`. -/
def sampleMode (rUnclamped u : ℚ) : ℕ :=
  let r := min rUnclamped (99999999999 / 10 ^ 11)
  sampleLoopGo r u (sampleMaxIter r) (1 - r) 0

/-- The per-mode loop of `_sample` for a temperature `T ≠ 0`: for each mode,
compute the Boltzmann factor from the zero-point energy (stored in joules,
read back with `as_kcal_per_mole`), draw one uniform, and run the
accumulation loop.  `expFn` abstracts `math.exp`. -/
def sampleModesGo (expFn : ℚ → ℚ) (rtFactor : ℚ) : List ℚ → PyRng → List ℕ × PyRng
  | [], r => ([], r)
  | zJ :: rest, r =>
    let bf := expFn (-2 * (zJ * JOULE_TO_KCAL_PER_MOLE) / rtFactor)
    let (u, r1) := rngUniform r
    let (ns, r2) := sampleModesGo expFn rtFactor rest r1
    (sampleMode bf u :: ns, r2)

/-- The `fixed_vibrational_quanta` override loop:
`vibrational_quantum_numbers[mode - 1] = quanta` for each pair, with 1-based
mode indices (the parser only produces indices `>= 1`; Python's negative
indexing for `mode = 0` is not modelled). -/
def applyFixedQuanta (fixed : List (ℕ × ℕ)) (ns : List ℕ) : List ℕ :=
  fixed.foldl (fun acc mq => acc.set (mq.1 - 1) mq.2) ns

/-- `initial_energy_sampler._sample`: at `T == 0` return one zero per mode
immediately (no override pass); otherwise sample every mode and then apply the
fixed-quanta overrides.  Zero-point energies are the container's stored joule
values, `rtFactor = GAS_CONSTANT_KCAL * T`. -/
def pySample (expFn : ℚ → ℚ) (T : ℚ) (zpesJ : List ℚ) (fixed : List (ℕ × ℕ))
    (r : PyRng) : List ℕ × PyRng :=
  if T = 0 then (List.replicate zpesJ.length 0, r)
  else
    let (ns, r1) := sampleModesGo expFn (GAS_CONSTANT_KCAL * T) zpesJ r
    (applyFixedQuanta fixed ns, r1)

/- Energy boost (`initial_energy_sampler._energy_boost` and the guard in
`generate`). -/

/-- `_energy_boost`: read the total mode energy in kcal/mol; `<= min` raises
the temperature by `5.0` and asks for a resample, `>= max` (checked second)
lowers it by `2.0` and asks for a resample, otherwise accept. -/
def energyBoostStep (totalModeEnergyJ minBoost maxBoost T : ℚ) : Bool × ℚ :=
  let e := totalModeEnergyJ * JOULE_TO_KCAL_PER_MOLE
  if e ≤ minBoost then (true, T + 5)
  else if maxBoost ≤ e then (true, T - 2)
  else (false, T)

/-- The guard in `generate` (line 385): with energy boost on, raise
`InputError` when `energy_boost_max < total_zpe.as_kcal_per_mole(0)`. -/
def energyBoostGuard (maxBoost totalZpeJ : ℚ) : Except PyErr Unit :=
  if maxBoost < totalZpeJ * JOULE_TO_KCAL_PER_MOLE then .error .inputError else .ok ()

/- Dynamic-typing layer.  `ForceConstants.as_millidyne_per_angstrom(f)` returns
a Python 3-tuple; the sampler then combines it with floats using `*`, `/` and
`-`.  In Python a float combined with a tuple under these operators raises
`TypeError` (sequence repetition only applies to int operands, which do not
occur here), so the arithmetic is modelled on a tagged value universe. -/

/-- A Python value flowing through the sampler arithmetic: a float or an
xyz tuple. -/
inductive PyVal where
  | num : ℚ → PyVal
  | tup : T3 → PyVal

/-- Python `*` on the modelled values: float times float multiplies, any
combination involving a tuple raises `TypeError`. -/
def pyMulVal : PyVal → PyVal → Except PyErr PyVal
  | .num a, .num b => .ok (.num (a * b))
  | _, _ => .error .typeError

/-- Python `-` on the modelled values. -/
def pySubVal : PyVal → PyVal → Except PyErr PyVal
  | .num a, .num b => .ok (.num (a - b))
  | _, _ => .error .typeError

/-- Python `/` on the modelled values (division by zero, which would raise
`ZeroDivisionError`, is left total on `ℚ`; no modelled input divides by 0). -/
def pyDivVal : PyVal → PyVal → Except PyErr PyVal
  | .num a, .num b => .ok (.num (a / b))
  | _, _ => .error .typeError

/-- Extract a float where the source feeds the value to `math.sqrt` /
`math.pow` (a tuple there would raise `TypeError` as well). -/
def pyNumOfVal : PyVal → Except PyErr ℚ
  | .num a => .ok a
  | .tup _ => .error .typeError

/- Initial-state sampler state (`initial_energy_sampler.py`). -/

/-- `enumerations.PhaseDirection`. -/
inductive PhaseDirection where
  | RANDOM
  | BRING_TOGETHER
  | PUSH_APART
  deriving DecidableEq, Repr

/-- `enumerations.GeometryDisplacement`. -/
inductive GeometryDisplacement where
  | NONE
  | EDGE_WEIGHTED
  | GAUSSIAN_DISTRIBUTION
  | UNIFORM
  deriving DecidableEq, Repr

/-- `enumerations.OscillatorType`. -/
inductive OscillatorType where
  | QUASICLASSICAL
  | CLASSICAL
  deriving DecidableEq, Repr

/-- The slice of `ProgramState` read by `_calculate_mode_velocities` and
`_check_if_mode_pushes_apart`: frequencies (cm^-1), the force-constant
container (canonical N/m triples), reduced masses (amu), per-mode per-atom
displacements and the initial structure (angstroms), the 1-based phase atom
pair, the phase direction, and the `fixed_mode_directions` map. -/
structure SamplerState where
  frequencies : List ℚ
  forceConstants : List T3
  reducedMasses : List ℚ
  modeDisplacements : List (List T3)
  structures0 : List T3
  phase : ℕ × ℕ
  phaseDirection : PhaseDirection
  fixedModeDirections : List (ℕ × ℤ)

/-- `_check_if_mode_pushes_apart`: does adding the first mode's displacement
to the two phase atoms increase their squared distance? -/
def checkIfModePushesApart (s : SamplerState) : Bool :=
  let a1 := s.phase.1 - 1
  let a2 := s.phase.2 - 1
  let m1 := (s.modeDisplacements.getD 0 []).getD a1 (0, 0, 0)
  let m2 := (s.modeDisplacements.getD 0 []).getD a2 (0, 0, 0)
  let p1 := s.structures0.getD a1 (0, 0, 0)
  let p2 := s.structures0.getD a2 (0, 0, 0)
  t3SqNorm (t3Sub p1 p2) < t3SqNorm (t3Sub (t3Add p1 m1) (t3Add p2 m2))

/-- The kinetic-energy expression of `_calculate_mode_velocities` (line 228):
`units * (mode_energy.as_millidyne_angstrom(f) - (0.5 * force_constants.as_millidyne_per_angstrom(f) * shift[f]**2))`.
The force-constant factor is a 3-tuple, so the innermost `*` raises
`TypeError`. -/
def cmvKineticEnergy (fcs : List T3) (modeEnergiesJ shifts : List ℚ) (f : ℕ) :
    Except PyErr ℚ := do
  let t1 ← pyMulVal (.num (1 / 2)) (.tup (forceConstantsAsMdyneAt fcs f))
  let t2 ← pyMulVal t1 (.num ((shifts.getD f 0) ^ 2))
  let t3 ← pySubVal (.num (modeEnergiesJ.getD f 0 * JOULE_TO_MILLIDYNE_ANGSTROM)) t2
  let t4 ← pyMulVal (.num unitsGramAngstromSq) t3
  pyNumOfVal t4

/-- The direction selection of `_calculate_mode_velocities` (lines 232-247):
for the first mode with a negative frequency, draw randomly under
`PhaseDirection.RANDOM` and otherwise consult the phase geometry; for every
other mode draw randomly; then invert under `BRING_TOGETHER`; finally a
`fixed_mode_directions` entry for mode `f+1` overwrites the value (the draw
has already been consumed). -/
def cmvDirection (s : SamplerState) (f : ℕ) (r : PyRng) : ℤ × PyRng :=
  let (d0, r1) :=
    if f = 0 ∧ s.frequencies.getD 0 0 < 0 then
      (if s.phaseDirection = PhaseDirection.RANDOM then rngOneOrNegOne r
       else ((if checkIfModePushesApart s then (1 : ℤ) else -1), r))
    else rngOneOrNegOne r
  let d1 := if s.phaseDirection = PhaseDirection.BRING_TOGETHER then -d0 else d0
  let d2 :=
    match (s.fixedModeDirections.find? (fun p => p.1 = f + 1)).map Prod.snd with
    | some v => v
    | none => d1
  (d2, r1)

/-- The mode loop of `_calculate_mode_velocities`: for each mode compute the
kinetic energy (which raises `TypeError` at the tuple multiplication), then the
direction, then `velocity = direction * sqrt(2*KE / (mu/N_A))`.  `sqrtFn`
abstracts `math.sqrt`; on an exception the consumed rng state is returned
alongside the error (the Python rng object keeps its state when the exception
propagates). -/
def calculateModeVelocitiesGo (sqrtFn : ℚ → ℚ) (s : SamplerState)
    (modeEnergiesJ shifts : List ℚ) :
    List ℕ → List ℚ → List ℤ → PyRng → (Except PyErr (List ℚ × List ℤ)) × PyRng
  | [], vels, dirs, r => (.ok (vels, dirs), r)
  | f :: rest, vels, dirs, r =>
    match cmvKineticEnergy s.forceConstants modeEnergiesJ shifts f with
    | .error e => (.error e, r)
    | .ok ke =>
      let (d, r1) := cmvDirection s f r
      let v := (d : ℚ) * sqrtFn (2 * ke / (s.reducedMasses.getD f 0 / AVOGADROS_NUMBER))
      calculateModeVelocitiesGo sqrtFn s modeEnergiesJ shifts rest (vels ++ [v]) (dirs ++ [d]) r1

/-- `initial_energy_sampler._calculate_mode_velocities`. -/
def calculateModeVelocities (sqrtFn : ℚ → ℚ) (s : SamplerState)
    (modeEnergiesJ shifts : List ℚ) (r : PyRng) :
    (Except PyErr (List ℚ × List ℤ)) × PyRng :=
  calculateModeVelocitiesGo sqrtFn s modeEnergiesJ shifts
    (List.range s.frequencies.length) [] [] r

/- `initial_energy_sampler._calculate_displacement`. -/

/-- Abstract draw functions for the displacement weights: `edgeFn u` stands
for `math.sin(2*pi*u)` applied to one consumed uniform, and `gaussDraw` for
the rejection-sampling `gaussian()` call (whose underlying draw count is not
determined by the uniform stream alone). -/
structure WeightFns where
  edgeFn : ℚ → ℚ
  gaussDraw : PyRng → ℚ × PyRng

/-- The `max_shift` expression (line 134):
`math.sqrt(2 * mode_energies.as_millidyne_angstrom(f) / force_constants.as_millidyne_per_angstrom(f))`.
The divisor is a 3-tuple, so the `/` raises `TypeError` before `math.sqrt`
is ever reached.  `sqrtFn` abstracts `math.sqrt`. -/
def cdMaxShift (sqrtFn : ℚ → ℚ) (fcs : List T3) (energyJ : ℚ) (f : ℕ) :
    Except PyErr ℚ := do
  let t1 ← pyDivVal (.num (2 * (energyJ * JOULE_TO_MILLIDYNE_ANGSTROM)))
    (.tup (forceConstantsAsMdyneAt fcs f))
  let q ← pyNumOfVal t1
  pure (sqrtFn q)

/-- The random-weight selection (lines 138-145): weight `0` when the mode's
frequency is `<= 10`, otherwise one draw according to
`geometry_displacement_type` (`NONE` leaves the weight `0`). -/
def cdRandomWeight (wf : WeightFns) (gd : GeometryDisplacement) (freq : ℚ)
    (r : PyRng) : ℚ × PyRng :=
  if freq > 10 then
    match gd with
    | .EDGE_WEIGHTED =>
      let (u, r1) := rngUniform r
      (wf.edgeFn u, r1)
    | .GAUSSIAN_DISTRIBUTION => wf.gaussDraw r
    | .UNIFORM =>
      let (u, r1) := rngUniform r
      (2 * (u - 1 / 2), r1)
    | .NONE => (0, r)
  else (0, r)

/-- The per-mode energy of `_calculate_displacement` (lines 125-128):
`zpe * (2n + 1)` for a quasiclassical oscillator with frequency `> 10`,
`zpe * 2n` otherwise (joule storage). -/
def cdModeEnergy (oscType : OscillatorType) (freq zpeJ : ℚ) (n : ℕ) : ℚ :=
  if oscType = OscillatorType.QUASICLASSICAL ∧ freq > 10 then zpeJ * (2 * (n : ℚ) + 1)
  else zpeJ * (2 * (n : ℚ))

/-- The mode loop of `_calculate_displacement`, accumulating the running
energy sum, the shifts, and the per-mode energies.  Every iteration first
appends the mode energy and then evaluates `max_shift`, which raises
`TypeError` at the float-by-tuple division. -/
def calculateDisplacementGo (sqrtFn : ℚ → ℚ) (wf : WeightFns)
    (oscType : OscillatorType) (gd : GeometryDisplacement)
    (freqs : List ℚ) (fcs : List T3) (zpesJ : List ℚ) (vqn : List ℕ) :
    List ℕ → ℚ → List ℚ → List ℚ → PyRng →
    (Except PyErr (ℚ × List ℚ × List ℚ)) × PyRng
  | [], eSum, shifts, modeEs, r => (.ok (eSum, shifts, modeEs), r)
  | f :: rest, eSum, shifts, modeEs, r =>
    let energy := cdModeEnergy oscType (freqs.getD f 0) (zpesJ.getD f 0) (vqn.getD f 0)
    match cdMaxShift sqrtFn fcs energy f with
    | .error e => (.error e, r)
    | .ok maxShift =>
      let (w, r1) := cdRandomWeight wf gd (freqs.getD f 0) r
      calculateDisplacementGo sqrtFn wf oscType gd freqs fcs zpesJ vqn rest
        (eSum + energy) (shifts ++ [maxShift * w]) (modeEs ++ [energy]) r1

/-- `initial_energy_sampler._calculate_displacement`. -/
def calculateDisplacement (sqrtFn : ℚ → ℚ) (wf : WeightFns)
    (oscType : OscillatorType) (gd : GeometryDisplacement)
    (freqs : List ℚ) (fcs : List T3) (zpesJ : List ℚ) (vqn : List ℕ)
    (r : PyRng) : (Except PyErr (ℚ × List ℚ × List ℚ)) × PyRng :=
  calculateDisplacementGo sqrtFn wf oscType gd freqs fcs zpesJ vqn
    (List.range freqs.length) 0 [] [] r

/- ESP log parsing (`electronic_structure_program_handler.GaussianHandler.parse_forces`). -/

/-- The observations `parse_forces` makes about one log line: the float value
of the 5th whitespace token when the line contains `SCF Done`; whether the
line contains the forces-block header `Forces (Hartrees/Bohr)`; whether it
contains the terminator `Cartesian Forces`; and the 3rd/4th/5th tokens as
floats when the first token is a digit string and those tokens parse
(otherwise the line is skipped by the `try`/`continue`). -/
structure GLine where
  scf : Option ℚ
  forcesHeader : Bool
  cartesian : Bool
  forceTriple : Option T3
  deriving DecidableEq, Repr

/-- The observable outcome of `parse_forces`.  All `SCF Done` values are
appended to ONE `Energies` object, and that same object is appended to
`program_state.energies` once per `SCF Done` line, so `energiesContainer` is
the shared container (joules) and `energyAppendCount` the number of aliases of
it pushed onto the state.  Likewise all force rows go into one `Forces`
container (newtons), pushed onto the state only when `Cartesian Forces` is
reached. -/
structure GParseResult where
  energiesContainer : List ℚ
  energyAppendCount : ℕ
  forcesContainer : List T3
  forcesAppended : Bool
  deriving DecidableEq, Repr

/-- The inner block scan (lines 150-163): walk the lines after the header;
`Cartesian Forces` appends the forces container to the state and returns from
the function (`true`); a numbered line appends its converted triple; running
off the end falls back to the outer loop (`false`), keeping the rows
accumulated so far. -/
def gaussianScanBlock (forces : List T3) : List GLine → Bool × List T3
  | [] => (false, forces)
  | l :: rest =>
    if l.cartesian then (true, forces)
    else
      match l.forceTriple with
      | some t => gaussianScanBlock (forces ++ [t3Smul HARTREE_PER_BOHR_TO_NEWTON t]) rest
      | none => gaussianScanBlock forces rest

/-- The outer scan of `parse_forces` (lines 141-163): every `SCF Done` line
appends its Hartree value, converted to joules, to the shared energies
container and pushes another alias of that container onto the state; a header
line starts the inner scan on the remaining lines, and when the inner scan
does not find the terminator the outer loop resumes on those same lines. -/
def gaussianParseGo (en : List ℚ) (cnt : ℕ) (fo : List T3) :
    List GLine → GParseResult
  | [] => ⟨en, cnt, fo, false⟩
  | l :: rest =>
    let en1 := match l.scf with | some v => en ++ [v * HARTREE_TO_JOULE] | none => en
    let cnt1 := match l.scf with | some _ => cnt + 1 | none => cnt
    if l.forcesHeader then
      match gaussianScanBlock fo rest with
      | (true, fo1) => ⟨en1, cnt1, fo1, true⟩
      | (false, fo1) => gaussianParseGo en1 cnt1 fo1 rest
    else gaussianParseGo en1 cnt1 fo rest

/-- `GaussianHandler.parse_forces` on an already-validated log (the
`Normal termination` check precedes this and raises otherwise). -/
def gaussianParseForces (log : List GLine) : GParseResult :=
  gaussianParseGo [] 0 [] log

/-- The value `print_state_info` and `main` read back:
`state.energies[-1].as_hartree(0)`-style access at index 0 of the LAST
appended energies entry; since every appended entry aliases the one shared
container, this is the container's head. -/
def lastAppendedEnergyAtZero (res : GParseResult) : Option ℚ :=
  if res.energyAppendCount = 0 then none else res.energiesContainer.head?

/- Specification helpers used by the theorems below. -/

/-- Partial sum `(1-r) + r(1-r) + ... + r^k (1-r)` of the geometric series
accumulated by `_sample`. -/
def geomPartial (r : ℚ) (k : ℕ) : ℚ := ∑ j ∈ Finset.range (k + 1), r ^ j * (1 - r)

/- Real-valued displacement weights.  The crash analysed under the sampler
theorems happens before any weight is drawn; the following definitions embed
the weight formulas of `random_number_generator.py` over `ℝ` so that the
intended bounds can be verified independently of that defect. -/

/-- `RandomNumberGenerator.edge_weighted()`: `sin(2*pi*uniform())`. -/
noncomputable def edgeWeightedVal (u : ℝ) : ℝ := Real.sin (2 * Real.pi * u)

/-- The `UNIFORM` displacement weight `2 * (uniform() - 0.5)`. -/
noncomputable def uniformWeightVal (u : ℝ) : ℝ := 2 * (u - 1 / 2)

/-- `RandomNumberGenerator.gaussian()`: the rejection loop returns the first
proposed `rng.gauss(0, 1/sqrt 2)` value lying in `[-1, 1]`.  `proposals` is
the stream of proposed values; `gaussianAccepts proposals v` says the loop
terminates with value `v`. -/
def gaussianAccepts (proposals : ℕ → ℝ) (v : ℝ) : Prop :=
  ∃ n, v = proposals n ∧ (-1 ≤ proposals n ∧ proposals n ≤ 1) ∧
    ∀ m < n, ¬(-1 ≤ proposals m ∧ proposals m ≤ 1)

/- Theorems.  Each claim of the specification audit is settled by exactly one
named theorem below; supporting lemmas and standalone observations are
interspersed. -/

/-- C1: evaluation at a failing input.  On a fully valid one-atom state
(non-empty forces and atoms, one structure, one stored velocity, a positive
1 fs step) `Verlet.run_next_step` raises `TypeError` out of
`_validate_program_state`'s `step_size <= 0` comparison, before appending an
acceleration, velocity or structure - so no appended structure obeying the
claimed update rule is ever produced. -/
theorem verlet_valid_state_type_error :
    verletRunNextStep
      ⟨[1], [[(0, 0, 0)]], [[(100 * ANGSTROM_TO_METER, 0, 0)]],
        [[(0, 0, 0)]], [], FEMTOSECOND_TO_SECOND⟩ = .error .typeError := rfl

/-- C7: evaluation at failing inputs.  `_validate_program_state` raises
`TypeError` (not the documented `ValueError`) for a state with non-empty
forces and atoms and a positive step size, and equally for a zero step size:
the `step_size <= 0` comparison on a `containers.Time` object raises before
the step size is examined.  Only the empty-forces and empty-atoms conditions
produce the claimed `InvalidState`-kind `ValueError`. -/
theorem validate_program_state_type_error :
    validateProgramState ⟨[1], [[(0, 0, 0)]], [[(0, 0, 0)]], [[(1, 0, 0)]], [],
        FEMTOSECOND_TO_SECOND⟩ = .error .typeError ∧
    validateProgramState ⟨[1], [[(0, 0, 0)]], [[(0, 0, 0)]], [[(1, 0, 0)]], [], 0⟩ =
      .error .typeError ∧
    validateProgramState ⟨[1], [[(0, 0, 0)]], [[(0, 0, 0)]], [], [], 1⟩ =
      .error .valueError ∧
    validateProgramState ⟨[], [[(0, 0, 0)]], [[(0, 0, 0)]], [[(1, 0, 0)]], [], 1⟩ =
      .error .valueError := ⟨rfl, rfl, rfl, rfl⟩

/-- C5: evaluation at a failing input.  With one mode, `_calculate_mode_velocities`
raises `TypeError` at `0.5 * force_constants.as_millidyne_per_angstrom(f)`
(a float times a 3-tuple) before any direction draw, both with
`fixed_mode_directions = {1: 1}` and without; in both runs ZERO uniform draws
are consumed (`idx` stays 0), whereas the claim requires one preserved draw for
the fixed mode. -/
theorem mode_velocities_fixed_direction_type_error :
    (calculateModeVelocities (fun q => q)
        ⟨[500], [(5756 / 10 ^ 4, 5756 / 10 ^ 4, 5756 / 10 ^ 4)], [1], [[(1, 0, 0)]],
          [(0, 0, 0)], (1, 2), .RANDOM, [(1, 1)]⟩
        [1 / 10 ^ 19] [0] ⟨fun _ => 0, 0⟩).1 = .error .typeError ∧
    (calculateModeVelocities (fun q => q)
        ⟨[500], [(5756 / 10 ^ 4, 5756 / 10 ^ 4, 5756 / 10 ^ 4)], [1], [[(1, 0, 0)]],
          [(0, 0, 0)], (1, 2), .RANDOM, []⟩
        [1 / 10 ^ 19] [0] ⟨fun _ => 0, 0⟩).1 = .error .typeError ∧
    (calculateModeVelocities (fun q => q)
        ⟨[500], [(5756 / 10 ^ 4, 5756 / 10 ^ 4, 5756 / 10 ^ 4)], [1], [[(1, 0, 0)]],
          [(0, 0, 0)], (1, 2), .RANDOM, [(1, 1)]⟩
        [1 / 10 ^ 19] [0] ⟨fun _ => 0, 0⟩).2.idx = 0 ∧
    (calculateModeVelocities (fun q => q)
        ⟨[500], [(5756 / 10 ^ 4, 5756 / 10 ^ 4, 5756 / 10 ^ 4)], [1], [[(1, 0, 0)]],
          [(0, 0, 0)], (1, 2), .RANDOM, []⟩
        [1 / 10 ^ 19] [0] ⟨fun _ => 0, 0⟩).2.idx = 0 := ⟨rfl, rfl, rfl, rfl⟩

/-- C9: evaluation at a failing input.  Under `BRING_TOGETHER` with two
positive-frequency modes, `_calculate_mode_velocities` raises `TypeError` at
the float-times-tuple kinetic-energy expression of the first mode: no
direction is ever determined, so none is inverted. -/
theorem mode_velocities_bring_together_type_error :
    (calculateModeVelocities (fun q => q)
        ⟨[4401, 1000], [(5756 / 10 ^ 4, 5756 / 10 ^ 4, 5756 / 10 ^ 4), (1, 1, 1)], [1, 1],
          [[(1, 0, 0), (-1, 0, 0)]], [(0, 0, 0), (1, 0, 0)], (1, 2), .BRING_TOGETHER, []⟩
        [1 / 10 ^ 19, 1 / 10 ^ 19] [0, 0] ⟨fun _ => 0, 0⟩).1 = .error .typeError ∧
    (calculateModeVelocities (fun q => q)
        ⟨[4401, 1000], [(5756 / 10 ^ 4, 5756 / 10 ^ 4, 5756 / 10 ^ 4), (1, 1, 1)], [1, 1],
          [[(1, 0, 0), (-1, 0, 0)]], [(0, 0, 0), (1, 0, 0)], (1, 2), .BRING_TOGETHER, []⟩
        [1 / 10 ^ 19, 1 / 10 ^ 19] [0, 0] ⟨fun _ => 0, 0⟩).2.idx = 0 := ⟨rfl, rfl⟩

/-- C10: evaluation at a failing input.  On the specification's own H2-like
scenario (one quasiclassical mode at 4401 1/cm, k = 5.756 mdyne/A),
`_calculate_displacement` raises `TypeError` at
`2 * E / force_constants.as_millidyne_per_angstrom(f)` (a float divided by a
3-tuple) - before `math.sqrt` is reached and before any displacement weight
is drawn (`idx` stays 0). -/
theorem displacement_max_shift_type_error :
    (calculateDisplacement (fun q => q) ⟨fun u => u, fun r => (0, r)⟩
        .QUASICLASSICAL .EDGE_WEIGHTED
        [4401] [(5756 / 10 ^ 4, 5756 / 10 ^ 4, 5756 / 10 ^ 4)] [87 / 10 ^ 20] [0]
        ⟨fun _ => 0, 0⟩).1 = .error .typeError ∧
    (calculateDisplacement (fun q => q) ⟨fun u => u, fun r => (0, r)⟩
        .QUASICLASSICAL .EDGE_WEIGHTED
        [4401] [(5756 / 10 ^ 4, 5756 / 10 ^ 4, 5756 / 10 ^ 4)] [87 / 10 ^ 20] [0]
        ⟨fun _ => 0, 0⟩).2.idx = 0 := ⟨rfl, rfl⟩

/-- C4: appending a scalar `k` to a `ForceConstants` container in
mdyne/angstrom stores the broadcast canonical triple `(0.1*k, 0.1*k, 0.1*k)`,
and `as_millidyne_per_angstrom` multiplies stored values by 10, so the
append-then-read round trip is the identity `(k, k, k)`; the same round trip
holds for triple inputs. -/
theorem force_constants_roundtrip :
    ∀ (fcs : List T3) (k : ℚ) (t : T3),
      forceConstantsAppendMdyne fcs (.scalar k) =
        fcs ++ [((1 / 10) * k, (1 / 10) * k, (1 / 10) * k)] ∧
      forceConstantsAsMdyne (forceConstantsAppendMdyne fcs (.scalar k)) =
        forceConstantsAsMdyne fcs ++ [(k, k, k)] ∧
      forceConstantsAsMdyne (forceConstantsAppendMdyne fcs (.triple t)) =
        forceConstantsAsMdyne fcs ++ [t] := by
  intro fcs k t
  refine ⟨by simp [forceConstantsAppendMdyne, t3Smul], ?_, ?_⟩
  · simp [forceConstantsAppendMdyne, forceConstantsAsMdyne, t3Smul]
  · simp [forceConstantsAppendMdyne, forceConstantsAsMdyne, t3Smul]

/-- C6: counterexample.  `Positions.__add__`/`__sub__` on containers of
lengths 2 and 1 do NOT fail: the `zip` silently truncates and yields a
length-1 result; likewise `Accelerations.from_forces` with 2 forces and 1
atom yields a length-1 result instead of requiring equal lengths. -/
theorem containers_unequal_length_counterexample :
    posAdd [((1 : ℚ), 1, 1), (2, 2, 2)] [((10 : ℚ), 0, 0)] = [((11 : ℚ), 1, 1)] ∧
    (posAdd [((1 : ℚ), 1, 1), (2, 2, 2)] [((10 : ℚ), 0, 0)]).length = 1 ∧
    posSub [((1 : ℚ), 1, 1), (2, 2, 2)] [((10 : ℚ), 0, 0)] = [((-9 : ℚ), 1, 1)] ∧
    accelerationsFromForces [((0 : ℚ), 0, 0), (1, 0, 0)] [1] = .ok [((0 : ℚ), 0, 0)] := by
  refine ⟨?_, ?_, ?_, ?_⟩ <;>
    norm_num [posAdd, posSub, accelerationsFromForces, t3Add, t3Sub, t3Smul]

/-- C8: counterexample.  With `energy_boost_min = 10`, `energy_boost_max = 20`
and a total vibrational energy of exactly 10 kcal/mol - neither below the
minimum nor above the maximum - `_energy_boost` does NOT accept: it takes the
`energy <= min` branch, raises the temperature by 5.0 K and asks for a
resample. -/
theorem energy_boost_boundary_counterexample :
    ¬((10 : ℚ) * KCAL_PER_MOLE_TO_JOULE * JOULE_TO_KCAL_PER_MOLE < 10) ∧
    ¬(20 < (10 : ℚ) * KCAL_PER_MOLE_TO_JOULE * JOULE_TO_KCAL_PER_MOLE) ∧
    energyBoostStep (10 * KCAL_PER_MOLE_TO_JOULE) 10 20 300 = (true, 305) := by
  refine ⟨?_, ?_, ?_⟩ <;>
    norm_num [energyBoostStep, KCAL_PER_MOLE_TO_JOULE, JOULE_TO_KCAL_PER_MOLE]

/-- C3: counterexample.  For a log with two `SCF Done` lines (values -1 and
-2 Hartree) before one forces block, the value read at index 0 of the last
appended energies entry is the FIRST energy `-1 * HARTREE_TO_JOULE`, not the
last `-2 * HARTREE_TO_JOULE`: every `SCF Done` value is appended into the one
shared `Energies` container.  The forces row itself is converted as
claimed. -/
theorem parse_forces_scf_counterexample :
    lastAppendedEnergyAtZero (gaussianParseForces
      [⟨some (-1), false, false, none⟩,
       ⟨some (-2), false, false, none⟩,
       ⟨none, true, false, none⟩,
       ⟨none, false, false, some (1 / 100, 0, 0)⟩,
       ⟨none, false, true, none⟩]) = some ((-1) * HARTREE_TO_JOULE) ∧
    ((-1 : ℚ) * HARTREE_TO_JOULE ≠ (-2 : ℚ) * HARTREE_TO_JOULE) ∧
    (gaussianParseForces
      [⟨some (-1), false, false, none⟩,
       ⟨some (-2), false, false, none⟩,
       ⟨none, true, false, none⟩,
       ⟨none, false, false, some (1 / 100, 0, 0)⟩,
       ⟨none, false, true, none⟩]).forcesContainer =
      [(HARTREE_PER_BOHR_TO_NEWTON * (1 / 100), 0, 0)] ∧
    (gaussianParseForces
      [⟨some (-1), false, false, none⟩,
       ⟨some (-2), false, false, none⟩,
       ⟨none, true, false, none⟩,
       ⟨none, false, false, some (1 / 100, 0, 0)⟩,
       ⟨none, false, true, none⟩]).forcesAppended = true := by
  refine ⟨?_, ?_, ?_, ?_⟩ <;>
    norm_num [lastAppendedEnergyAtZero, gaussianParseForces, gaussianParseGo,
      gaussianScanBlock, t3Smul, HARTREE_TO_JOULE]

/-- C6 (amended): pointwise `+`/`-` between same-kind containers truncate to
the shorter operand (`result length = min`), scalar `*` preserves length, and
`Accelerations.from_forces(F, atoms)` pairs forces with atoms up to
`min(len F, len atoms)` - its only failure is the `IndexError` from the
`atoms[0]` type guard when the atom list is empty; no equal-length requirement
is enforced anywhere. -/
theorem containers_length_amended :
    ∀ (a b : List T3) (k : ℚ) (F : List T3) (m : List ℚ),
      (posAdd a b).length = min a.length b.length ∧
      (posSub a b).length = min a.length b.length ∧
      (posMulScalar a k).length = a.length ∧
      (m = [] → accelerationsFromForces F m = .error .indexError) ∧
      (m ≠ [] →
        accelerationsFromForces F m =
          .ok (List.zipWith (fun mm p => t3Smul (1 / (mm * AMU_TO_KG)) p) m F) ∧
        (List.zipWith (fun mm p => t3Smul (1 / (mm * AMU_TO_KG)) p) m F).length =
          min F.length m.length) := by
  intro a b k F m
  refine ⟨?_, ?_, ?_, ?_, ?_⟩
  · simp [posAdd]
  · simp [posSub]
  · simp [posMulScalar]
  · intro h; simp [accelerationsFromForces, h]
  · intro h
    refine ⟨by simp [accelerationsFromForces, h], ?_⟩
    rw [List.length_zipWith]; omega

/-- C6: witness.  `Accelerations.from_forces` with one force and two atoms
succeeds and yields `min 1 2 = 1` entries. -/
theorem containers_length_amended_witness :
    accelerationsFromForces [((0 : ℚ), 0, 0)] [1, 2] =
      .ok (List.zipWith (fun mm p => t3Smul (1 / (mm * AMU_TO_KG)) p) [1, 2]
        [((0 : ℚ), 0, 0)]) ∧
    (List.zipWith (fun mm p => t3Smul (1 / (mm * AMU_TO_KG)) p) [1, 2]
      [((0 : ℚ), 0, 0)]).length = min 1 2 :=
  (containers_length_amended [] [] 0 [((0 : ℚ), 0, 0)] [1, 2]).2.2.2.2 (by simp)

/-- C8 (amended): with energy boost enabled, `generate` raises `InputError`
when `energy_boost_max` is below the total zero-point energy in kcal/mol and
proceeds otherwise; each `_energy_boost` iteration adds 5.0 K when the total
vibrational energy is AT OR BELOW the minimum, subtracts 2.0 K when it is at
or above the maximum (checked second), and accepts exactly when the energy
lies STRICTLY between the two bounds - so on acceptance
`min < energy < max`. -/
theorem energy_boost_amended (eJ minB maxB T zpeJ : ℚ) :
    (maxB < zpeJ * JOULE_TO_KCAL_PER_MOLE →
      energyBoostGuard maxB zpeJ = .error .inputError) ∧
    (¬ maxB < zpeJ * JOULE_TO_KCAL_PER_MOLE → energyBoostGuard maxB zpeJ = .ok ()) ∧
    (eJ * JOULE_TO_KCAL_PER_MOLE ≤ minB →
      energyBoostStep eJ minB maxB T = (true, T + 5)) ∧
    (¬ eJ * JOULE_TO_KCAL_PER_MOLE ≤ minB → maxB ≤ eJ * JOULE_TO_KCAL_PER_MOLE →
      energyBoostStep eJ minB maxB T = (true, T - 2)) ∧
    (minB < eJ * JOULE_TO_KCAL_PER_MOLE → eJ * JOULE_TO_KCAL_PER_MOLE < maxB →
      energyBoostStep eJ minB maxB T = (false, T)) ∧
    ((energyBoostStep eJ minB maxB T).1 = false →
      minB < eJ * JOULE_TO_KCAL_PER_MOLE ∧ eJ * JOULE_TO_KCAL_PER_MOLE < maxB) := by
  refine ⟨?_, ?_, ?_, ?_, ?_, ?_⟩
  · intro h; simp [energyBoostGuard, h]
  · intro h; simp [energyBoostGuard, h]
  · intro h; simp [energyBoostStep, h]
  · intro h1 h2; simp [energyBoostStep, h1, h2]
  · intro h1 h2
    have ha : ¬ eJ * JOULE_TO_KCAL_PER_MOLE ≤ minB := not_le.mpr h1
    have hb : ¬ maxB ≤ eJ * JOULE_TO_KCAL_PER_MOLE := not_le.mpr h2
    simp [energyBoostStep, ha, hb]
  · intro h
    by_cases ha : eJ * JOULE_TO_KCAL_PER_MOLE ≤ minB
    · simp [energyBoostStep, ha] at h
    · by_cases hb : maxB ≤ eJ * JOULE_TO_KCAL_PER_MOLE
      · simp [energyBoostStep, ha, hb] at h
      · exact ⟨not_le.mp ha, not_le.mp hb⟩

/-- C8: witness.  A total vibrational energy of 15 kcal/mol with bounds
`[10, 20]` is accepted and the temperature is left unchanged. -/
theorem energy_boost_amended_witness :
    energyBoostStep (15 * KCAL_PER_MOLE_TO_JOULE) 10 20 300 = (false, 300) :=
  (energy_boost_amended (15 * KCAL_PER_MOLE_TO_JOULE) 10 20 300 0).2.2.2.2.1
    (by norm_num [KCAL_PER_MOLE_TO_JOULE, JOULE_TO_KCAL_PER_MOLE])
    (by norm_num [KCAL_PER_MOLE_TO_JOULE, JOULE_TO_KCAL_PER_MOLE])

/-- The zeroth partial sum of the accumulated geometric series is `1 - r`,
the value `c_e_fraction` starts from. -/
theorem geomPartial_zero (r : ℚ) : geomPartial r 0 = 1 - r := by
  simp [geomPartial]

/-- One accumulation step of `_sample` adds `r^(j+1) * (1 - r)`. -/
theorem geomPartial_succ (r : ℚ) (j : ℕ) :
    geomPartial r (j + 1) = geomPartial r j + r ^ (j + 1) * (1 - r) := by
  simp [geomPartial, Finset.sum_range_succ]

/-- Invariant of the `_sample` accumulation loop: started at partial sum
`S j` with `j` completed additions and `fuel` permitted iterations, the loop
returns the first index whose partial sum reaches `u`, unless the fuel runs
out first. -/
theorem sampleLoopGo_spec (r u : ℚ) :
    ∀ (fuel j : ℕ),
      j ≤ sampleLoopGo r u fuel (geomPartial r j) j ∧
      sampleLoopGo r u fuel (geomPartial r j) j ≤ j + fuel ∧
      (∀ k, j ≤ k → k < sampleLoopGo r u fuel (geomPartial r j) j → geomPartial r k < u) ∧
      (sampleLoopGo r u fuel (geomPartial r j) j = j + fuel ∨
        u ≤ geomPartial r (sampleLoopGo r u fuel (geomPartial r j) j)) := by
  intro fuel
  induction fuel with
  | zero =>
    intro j
    have heq : sampleLoopGo r u 0 (geomPartial r j) j = j := rfl
    rw [heq]
    exact ⟨le_refl j, by omega, by omega, Or.inl (by omega)⟩
  | succ n ih =>
    intro j
    by_cases h : geomPartial r j < u
    · have heq : sampleLoopGo r u (n + 1) (geomPartial r j) j =
          sampleLoopGo r u n (geomPartial r (j + 1)) (j + 1) := by
        simp [sampleLoopGo, h, geomPartial_succ]
      obtain ⟨ih1, ih2, ih3, ih4⟩ := ih (j + 1)
      rw [heq]
      refine ⟨by omega, by omega, ?_, ?_⟩
      · intro k hk1 hk2
        rcases Nat.eq_or_lt_of_le hk1 with hk | hk
        · rw [← hk]; exact h
        · exact ih3 k hk hk2
      · rcases ih4 with h4 | h4
        · exact Or.inl (by omega)
        · exact Or.inr h4
    · have heq : sampleLoopGo r u (n + 1) (geomPartial r j) j = j := by
        simp [sampleLoopGo, h]
      rw [heq]
      exact ⟨le_refl j, by omega, by omega, Or.inr (not_lt.mp h)⟩

/-- Characterisation of one `_sample` mode: the returned quantum number `n`
is at most `max_iter`; every partial sum strictly before `n` is below the
draw `u`; and either the safety bound was hit or the partial sum at `n`
reached `u`. -/
theorem sampleMode_char (rU u : ℚ) :
    sampleMode rU u ≤ sampleMaxIter (min rU (99999999999 / 10 ^ 11)) ∧
    (∀ k < sampleMode rU u, geomPartial (min rU (99999999999 / 10 ^ 11)) k < u) ∧
    (sampleMode rU u = sampleMaxIter (min rU (99999999999 / 10 ^ 11)) ∨
      u ≤ geomPartial (min rU (99999999999 / 10 ^ 11)) (sampleMode rU u)) := by
  have h := sampleLoopGo_spec (min rU (99999999999 / 10 ^ 11)) u
    (sampleMaxIter (min rU (99999999999 / 10 ^ 11))) 0
  rw [geomPartial_zero] at h
  obtain ⟨-, h2, h3, h4⟩ := h
  refine ⟨?_, ?_, ?_⟩
  · simpa [sampleMode] using h2
  · intro k hk
    exact h3 k (Nat.zero_le k) (by simpa [sampleMode] using hk)
  · simpa [sampleMode] using h4

/-- The per-mode loop of `_sample` consumes exactly one uniform draw per mode,
in order: mode `i` uses the stream value at offset `i`, and the cursor ends
advanced by the number of modes. -/
theorem sampleModesGo_spec (expFn : ℚ → ℚ) (rt : ℚ) :
    ∀ (zs : List ℚ) (r : PyRng),
      sampleModesGo expFn rt zs r =
        (zs.mapIdx (fun i zJ =>
          sampleMode (expFn (-2 * (zJ * JOULE_TO_KCAL_PER_MOLE) / rt))
            (r.stream (r.idx + i))),
         { r with idx := r.idx + zs.length }) := by
  intro zs
  induction zs with
  | nil => intro r; simp [sampleModesGo]
  | cons z rest ih =>
    intro r
    simp only [sampleModesGo, rngUniform, ih, List.mapIdx_cons, List.length_cons]
    have hfun :
        (fun i zJ =>
          sampleMode (expFn (-2 * (zJ * JOULE_TO_KCAL_PER_MOLE) / rt))
            (r.stream (r.idx + 1 + i))) =
        (fun i zJ =>
          sampleMode (expFn (-2 * (zJ * JOULE_TO_KCAL_PER_MOLE) / rt))
            (r.stream (r.idx + (i + 1)))) := by
      funext i zJ
      rw [Nat.add_assoc, Nat.add_comm 1 i]
    refine Prod.ext ?_ ?_
    · simp only [hfun, Nat.add_zero]
    · show ({ stream := r.stream, idx := r.idx + 1 + rest.length } : PyRng) =
        { stream := r.stream, idx := r.idx + (rest.length + 1) }
      congr 1
      omega

/-- C2: `_sample` returns all zeros at `T = 0` (returning the rng untouched);
otherwise each mode `f` draws one uniform `u` in stream order and runs the
clamped geometric accumulation, after which `fixed_vibrational_quanta`
overrides are written at their 1-based indices; `u` below the first term
`1 - r` yields quantum number 0; and the loop result is characterised by the
partial sums of `(1-r) + r(1-r) + r^2(1-r) + ...` together with the
`max_iter = int(4000*r + 2)` safety bound. -/
theorem sample_spec (expFn : ℚ → ℚ) (T : ℚ) (zpesJ : List ℚ)
    (fixed : List (ℕ × ℕ)) (r : PyRng) :
    (T = 0 → pySample expFn T zpesJ fixed r = (List.replicate zpesJ.length 0, r)) ∧
    (T ≠ 0 → pySample expFn T zpesJ fixed r =
      (applyFixedQuanta fixed
        (zpesJ.mapIdx fun i zJ =>
          sampleMode (expFn (-2 * (zJ * JOULE_TO_KCAL_PER_MOLE) / (GAS_CONSTANT_KCAL * T)))
            (r.stream (r.idx + i))),
       { r with idx := r.idx + zpesJ.length })) ∧
    (∀ rU u, u < 1 - min rU (99999999999 / 10 ^ 11) → sampleMode rU u = 0) ∧
    (∀ rU u,
      sampleMode rU u ≤ sampleMaxIter (min rU (99999999999 / 10 ^ 11)) ∧
      (∀ k < sampleMode rU u, geomPartial (min rU (99999999999 / 10 ^ 11)) k < u) ∧
      (sampleMode rU u = sampleMaxIter (min rU (99999999999 / 10 ^ 11)) ∨
        u ≤ geomPartial (min rU (99999999999 / 10 ^ 11)) (sampleMode rU u))) := by
  refine ⟨?_, ?_, ?_, fun rU u => sampleMode_char rU u⟩
  · intro h; simp [pySample, h]
  · intro h; simp [pySample, h, sampleModesGo_spec]
  · intro rU u hu
    by_contra hn
    have hk := (sampleMode_char rU u).2.1 0 (Nat.pos_of_ne_zero hn)
    rw [geomPartial_zero] at hk
    linarith

/-- C2: witness.  At `T = 0` with one mode the sampler returns `[0]` and the
untouched rng. -/
theorem sample_spec_witness :
    pySample (fun _ => 1 / 2) 0 [1] [] ⟨fun _ => 0, 0⟩ = ([0], ⟨fun _ => 0, 0⟩) :=
  (sample_spec (fun _ => 1 / 2) 0 [1] [] ⟨fun _ => 0, 0⟩).1 rfl

/-- The inner forces-block scan collects, in order, the converted triples of
every numbered line up to the `Cartesian Forces` terminator, and returns
through the function's `return` (flag `true`). -/
theorem gaussianScanBlock_spec (ct : GLine) (post : List GLine) (hct : ct.cartesian = true) :
    ∀ (block : List GLine) (fo : List T3), (∀ l ∈ block, l.cartesian = false) →
      gaussianScanBlock fo (block ++ ct :: post) =
        (true, fo ++ block.filterMap
          (fun l => l.forceTriple.map (t3Smul HARTREE_PER_BOHR_TO_NEWTON))) := by
  intro block
  induction block with
  | nil => intro fo _; simp [gaussianScanBlock, hct]
  | cons l bs ih =>
    intro fo hb
    have hl : l.cartesian = false := hb l (by simp)
    have hbs : ∀ x ∈ bs, x.cartesian = false := fun x hx => hb x (by simp [hx])
    cases hft : l.forceTriple with
    | none =>
      simp only [List.cons_append, gaussianScanBlock, hl, hft, Bool.false_eq_true,
        if_false, List.append_eq]
      rw [ih fo hbs]
      simp [List.filterMap_cons, hft]
    | some t =>
      simp only [List.cons_append, gaussianScanBlock, hl, hft, Bool.false_eq_true,
        if_false, List.append_eq]
      rw [ih (fo ++ [t3Smul HARTREE_PER_BOHR_TO_NEWTON t]) hbs]
      simp [List.filterMap_cons, hft]

/-- The outer `parse_forces` scan over `pre ++ [header] ++ block ++ [cartesian] ++ post`:
each `SCF Done` value of `pre` and of the header line is appended (converted
to joules) to the shared container - one state-append per line - and the
block's converted force rows are appended when the terminator is reached;
`post` is never scanned. -/
theorem gaussianParseGo_spec (hd : GLine) (block post : List GLine) (ct : GLine)
    (hhd : hd.forcesHeader = true) (hct : ct.cartesian = true)
    (hblock : ∀ l ∈ block, l.cartesian = false) :
    ∀ (pre : List GLine) (en : List ℚ) (cnt : ℕ) (fo : List T3),
      (∀ l ∈ pre, l.forcesHeader = false) →
      gaussianParseGo en cnt fo (pre ++ hd :: (block ++ ct :: post)) =
        ⟨en ++ ((pre ++ [hd]).filterMap GLine.scf).map (· * HARTREE_TO_JOULE),
         cnt + ((pre ++ [hd]).filterMap GLine.scf).length,
         fo ++ block.filterMap
           (fun l => l.forceTriple.map (t3Smul HARTREE_PER_BOHR_TO_NEWTON)),
         true⟩ := by
  intro pre
  induction pre with
  | nil =>
    intro en cnt fo _
    cases hscf : hd.scf with
    | none =>
      simp only [List.nil_append, gaussianParseGo, hscf, hhd]
      rw [gaussianScanBlock_spec ct post hct block fo hblock]
      simp [List.filterMap_cons, hscf]
    | some v =>
      simp only [List.nil_append, gaussianParseGo, hscf, hhd]
      rw [gaussianScanBlock_spec ct post hct block fo hblock]
      simp [List.filterMap_cons, hscf]
  | cons p ps ih =>
    intro en cnt fo hp
    have hpf : p.forcesHeader = false := hp p (by simp)
    have hps : ∀ l ∈ ps, l.forcesHeader = false := fun x hx => hp x (by simp [hx])
    cases hscf : p.scf with
    | none =>
      simp only [List.cons_append, gaussianParseGo, hscf, hpf, Bool.false_eq_true,
        if_false, List.append_eq]
      rw [ih en cnt fo hps]
      simp [List.filterMap_cons, hscf]
    | some v =>
      simp only [List.cons_append, gaussianParseGo, hscf, hpf, Bool.false_eq_true,
        if_false, List.append_eq]
      rw [ih (en ++ [v * HARTREE_TO_JOULE]) (cnt + 1) fo hps]
      simp [List.filterMap_cons, hscf]
      omega

/-- C3 (amended): for a log consisting of lines `pre` (none a forces header),
a forces header, a block (none a terminator), the `Cartesian Forces`
terminator and a tail, `parse_forces` appends one alias of the shared
`Energies` container per `SCF Done` line, holding ALL their values in file
order, so the value read at index 0 of the last appended entry is the FIRST
`SCF Done` value (5th token, Hartree converted to joules) - not the last;
the appended `Forces` entry holds, in order, the 3rd/4th/5th-token triples of
the numbered block lines converted from Hartree/Bohr to newtons. -/
theorem parse_forces_amended (pre : List GLine) (hd : GLine) (block : List GLine)
    (ct : GLine) (post : List GLine)
    (hpre : ∀ l ∈ pre, l.forcesHeader = false)
    (hhd : hd.forcesHeader = true)
    (hblock : ∀ l ∈ block, l.cartesian = false)
    (hct : ct.cartesian = true) :
    gaussianParseForces (pre ++ hd :: (block ++ ct :: post)) =
      ⟨((pre ++ [hd]).filterMap GLine.scf).map (· * HARTREE_TO_JOULE),
       ((pre ++ [hd]).filterMap GLine.scf).length,
       block.filterMap (fun l => l.forceTriple.map (t3Smul HARTREE_PER_BOHR_TO_NEWTON)),
       true⟩ ∧
    lastAppendedEnergyAtZero (gaussianParseForces (pre ++ hd :: (block ++ ct :: post))) =
      (((pre ++ [hd]).filterMap GLine.scf).head?).map (· * HARTREE_TO_JOULE) := by
  have h := gaussianParseGo_spec hd block post ct hhd hct hblock pre [] 0 [] hpre
  have h1 : gaussianParseForces (pre ++ hd :: (block ++ ct :: post)) =
      ⟨((pre ++ [hd]).filterMap GLine.scf).map (· * HARTREE_TO_JOULE),
       ((pre ++ [hd]).filterMap GLine.scf).length,
       block.filterMap (fun l => l.forceTriple.map (t3Smul HARTREE_PER_BOHR_TO_NEWTON)),
       true⟩ := by
    simpa [gaussianParseForces] using h
  refine ⟨h1, ?_⟩
  rw [h1]
  cases hfm : (pre ++ [hd]).filterMap GLine.scf with
  | nil => simp [lastAppendedEnergyAtZero, hfm]
  | cons a as => simp [lastAppendedEnergyAtZero, hfm]

/-- C3: witness.  A one-SCF log: the single energy is converted to joules and
the single force row to newtons. -/
theorem parse_forces_amended_witness :
    gaussianParseForces
      [⟨some 3, false, false, none⟩, ⟨none, true, false, none⟩,
       ⟨none, false, false, some (1, 2, 3)⟩, ⟨none, false, true, none⟩] =
      ⟨[3 * HARTREE_TO_JOULE], 1,
       [(HARTREE_PER_BOHR_TO_NEWTON * 1, HARTREE_PER_BOHR_TO_NEWTON * 2,
         HARTREE_PER_BOHR_TO_NEWTON * 3)], true⟩ := by
  have h := (parse_forces_amended [⟨some 3, false, false, none⟩] ⟨none, true, false, none⟩
    [⟨none, false, false, some (1, 2, 3)⟩] ⟨none, false, true, none⟩ []
    (by simp) rfl (by simp) rfl).1
  simpa [t3Smul] using h

/-- Standalone check of the Verlet update expressions (lines 138-146): with
exactly one stored structure the appended structure is
`x + from_velocity(v, dt) + from_acceleration(a, dt) * 0.5`, using the last
stored velocity and the last appended acceleration. -/
theorem verletStructureUpdate_first_form (s : MDState) (x v a : List T3)
    (hx : s.structures = [x]) (hv : s.velocities.getLast? = some v)
    (ha : s.accelerations.getLast? = some a) :
    verletStructureUpdate s = .ok { s with structures :=
      [x, posAdd (posAdd x (positionsFromVelocity v s.stepSizeSeconds))
        (posMulScalar (positionsFromAcceleration a s.stepSizeSeconds) (1 / 2))] } := by
  simp [verletStructureUpdate, hx, hv, ha]

/-- Standalone check of the Verlet update expressions (lines 147-152): with
two or more stored structures the appended structure is
`x*2 - x_prev + from_acceleration(a, dt)`. -/
theorem verletStructureUpdate_second_form (s : MDState) (x1 x2 : List T3)
    (rest : List (List T3)) (a : List T3)
    (hx : s.structures.reverse = x1 :: x2 :: rest) (ha : s.accelerations.getLast? = some a) :
    verletStructureUpdate s = .ok { s with structures := s.structures ++
      [posAdd (posSub (posMulScalar x1 2) x2)
        (positionsFromAcceleration a s.stepSizeSeconds)] } := by
  have hlen : s.structures.length ≠ 1 := by
    have hc := congrArg List.length hx
    simp at hc
    omega
  simp [verletStructureUpdate, hlen, hx, ha]

/-- The two-or-more-structures Verlet update reads no stored velocity:
replacing the whole velocity history changes nothing about the appended
structure. -/
theorem verlet_second_form_ignores_velocities (s : MDState) (w : List (List T3))
    (h : s.structures.length ≠ 1) :
    Except.map MDState.structures (verletStructureUpdate { s with velocities := w }) =
      Except.map MDState.structures (verletStructureUpdate s) := by
  simp only [verletStructureUpdate, h, if_false]
  cases hr : s.structures.reverse with
  | nil => simp [hr]
  | cons x1 t =>
    cases t with
    | nil => simp [hr]
    | cons x2 r2 =>
      cases ha : s.accelerations.getLast? <;> simp [hr, ha, Except.map]

/-- The rng state left by the direction selection of
`_calculate_mode_velocities` does not depend on `fixed_mode_directions`: the
override happens after the draw (the formula below never mentions the
override map). -/
theorem cmvDirection_rng_consumption (s : SamplerState) (f : ℕ) (r : PyRng) :
    (cmvDirection s f r).2 =
      (if f = 0 ∧ s.frequencies.getD 0 0 < 0 then
        (if s.phaseDirection = PhaseDirection.RANDOM then (rngOneOrNegOne r).2 else r)
       else (rngOneOrNegOne r).2) := by
  unfold cmvDirection
  split_ifs <;>
    cases (s.fixedModeDirections.find? (fun p => p.1 = f + 1)).map Prod.snd <;> rfl

/-- `edge_weighted()` values lie in `[-1, 1]` (a sine value). -/
theorem edgeWeightedVal_bounds (u : ℝ) : -1 ≤ edgeWeightedVal u ∧ edgeWeightedVal u ≤ 1 :=
  ⟨Real.neg_one_le_sin _, Real.sin_le_one _⟩

/-- The `UNIFORM` weight `2*(u - 0.5)` lies in `[-1, 1]` for `u` in `[0, 1)`. -/
theorem uniformWeightVal_bounds (u : ℝ) (h0 : 0 ≤ u) (h1 : u < 1) :
    -1 ≤ uniformWeightVal u ∧ uniformWeightVal u ≤ 1 := by
  unfold uniformWeightVal
  constructor <;> linarith

/-- Any value the `gaussian()` rejection loop can return lies in `[-1, 1]`. -/
theorem gaussianAccepts_bounds (proposals : ℕ → ℝ) (v : ℝ)
    (h : gaussianAccepts proposals v) : -1 ≤ v ∧ v ≤ 1 := by
  obtain ⟨n, hv, hb, -⟩ := h
  exact hv ▸ hb

/-- The intended displacement-safety argument: for mode energy `E >= 0`,
force constant `k > 0`, reduced mass `mu > 0` and a weight `w` in `[-1, 1]`,
the shift `sqrt(2E/k) * w` satisfies `(1/2) k shift^2 <= E`, and the
square-root argument `2 * (units * (E - (1/2) k shift^2)) / (mu / N_A)` of
the mode-velocity formula is non-negative. -/
theorem shift_kinetic_energy_nonneg (E k mu w : ℝ) (hE : 0 ≤ E) (hk : 0 < k)
    (hmu : 0 < mu) (hw1 : -1 ≤ w) (hw2 : w ≤ 1) :
    (1 / 2) * k * (Real.sqrt (2 * E / k) * w) ^ 2 ≤ E ∧
    0 ≤ 2 * (((unitsGramAngstromSq : ℚ) : ℝ) *
        (E - (1 / 2) * k * (Real.sqrt (2 * E / k) * w) ^ 2)) /
      (mu / ((AVOGADROS_NUMBER : ℚ) : ℝ)) := by
  have hw : w ^ 2 ≤ 1 := by nlinarith
  have harg : 0 ≤ 2 * E / k := by positivity
  have hs : Real.sqrt (2 * E / k) ^ 2 = 2 * E / k := Real.sq_sqrt harg
  have hkey : (1 / 2) * k * (Real.sqrt (2 * E / k) * w) ^ 2 = E * w ^ 2 := by
    rw [mul_pow, hs]
    field_simp
    ring
  have hbound : (1 / 2) * k * (Real.sqrt (2 * E / k) * w) ^ 2 ≤ E := by
    rw [hkey]; nlinarith
  refine ⟨hbound, ?_⟩
  have h1 : 0 ≤ E - (1 / 2) * k * (Real.sqrt (2 * E / k) * w) ^ 2 := by linarith
  have h2 : (0 : ℝ) < ((unitsGramAngstromSq : ℚ) : ℝ) := by
    norm_num [unitsGramAngstromSq, METER_TO_ANGSTROM]
  have h3 : (0 : ℝ) < ((AVOGADROS_NUMBER : ℚ) : ℝ) := by
    norm_num [AVOGADROS_NUMBER]
  have h4 : 0 ≤ 2 * (((unitsGramAngstromSq : ℚ) : ℝ) *
      (E - (1 / 2) * k * (Real.sqrt (2 * E / k) * w) ^ 2)) := by
    have := mul_nonneg h2.le h1
    linarith
  exact div_nonneg h4 (div_nonneg hmu.le h3.le)
